import Mathlib

/-!
Verification of the `run_mup1cc` request handler of the velocitydrivesp-support
repository.  The repository holds two near-identical copies of a small FastAPI
service (`web/main.py` and `support /docker/main.py`); the one endpoint
`POST /api/run-mup1cc` writes an optional upload to a temporary file, invokes
the external tool `dr mup1cc` with a 30 second timeout, and maps the outcome to
a JSON response.

The handler is embedded shallowly: all effects (temporary-file creation, the
external process, the YAML decoder, the filesystem) are supplied by an
environment record `Env` of pure functions, and the handler becomes a pure
function from the environment, the initial filesystem and the request to a
response paired with the final filesystem.
-/

/-- PyObj models the Python values that `yaml.safe_load` can return
(scalars, lists, string-keyed dicts).  `PyObj.none` is Python `None`,
serialised as JSON `null`. -/
inductive PyObj where
  | none
  | bool (b : Bool)
  | int (n : Int)
  | str (s : String)
  | list (xs : List PyObj)
  | dict (kvs : List (String × PyObj))

/-- Upload models a multipart file upload: optional client-supplied filename
plus the raw bytes (FastAPI `UploadFile`). -/
structure Upload where
  filename : Option String
  content : List Nat

/-- Body models the JSON object returned by the handler.  Each handler exit
path returns a single-key dict; the constructors record which key. -/
inductive Body where
  | output (v : PyObj)
  | output_raw (s : String)
  | error (s : String)

/-- Keys of the JSON object a `Body` serialises to. -/
def Body.keys : Body → List String
  | Body.output _ => ["output"]
  | Body.output_raw _ => ["output_raw"]
  | Body.error _ => ["error"]

/-- Response models an HTTP response: status code plus JSON body. -/
structure Response where
  status : Nat
  body : Body

/-- TempOutcome models the effect of the temp-file phase
(`tempfile.NamedTemporaryFile(delete=False, suffix=suffix)` followed by
`tmp.write(await input_file.read())` and `tmp.close()`):
either every step succeeded and the file exists at `p`, or
`NamedTemporaryFile` itself raised (no file created, `temp_path` still None),
or a later step raised after the file was created and `temp_path` assigned. -/
inductive TempOutcome where
  | okCreated (p : String)
  | exnBefore (msg : String)
  | exnAfter (p : String) (msg : String)

/-- ProcOutcome models the result of `subprocess.run(cmd, capture_output=True,
text=True, timeout=...)`: a completed process with exit code, stdout and
stderr; a `TimeoutExpired` exception; or any other exception with message. -/
inductive ProcOutcome where
  | completed (rc : Int) (stdout : String) (stderr : String)
  | timeout
  | exn (msg : String)

/-- Env is the oracle for every effect the handler performs.  The external
process is a deterministic function of the command line: `procExn` says
whether `subprocess.run` raises a non-timeout exception, `procTime` gives the
process duration in seconds (`Option.none` meaning it never finishes), and
`procRc`, `procStdout`, `procStderr` give the completed process results.
`temp` gives the temp-file phase outcome for a requested suffix, `yamlLoad`
models `yaml.safe_load` (`Option.none` meaning the decoder raised), and
`fsProc` is the arbitrary effect of the spawned process on the filesystem,
applied whenever an invocation is attempted. -/
structure Env where
  temp : String → TempOutcome
  procExn : List String → Option String
  procTime : List String → Option Nat
  procRc : List String → Int
  procStdout : List String → String
  procStderr : List String → String
  yamlLoad : String → Option PyObj
  fsProc : List String → List String

/-- runProc gives the semantics of `subprocess.run cmd` with a timeout of
`timeoutSec` seconds under environment `env`: a non-timeout exception wins,
otherwise the call times out exactly when the process does not finish within
`timeoutSec` seconds, otherwise it completes. -/
def runProc (env : Env) (cmd : List String) (timeoutSec : Nat) : ProcOutcome :=
  match env.procExn cmd with
  | Option.some m => ProcOutcome.exn m
  | Option.none =>
    match env.procTime cmd with
    | Option.none => ProcOutcome.timeout
    | Option.some t =>
      if timeoutSec < t then ProcOutcome.timeout
      else ProcOutcome.completed (env.procRc cmd) (env.procStdout cmd) (env.procStderr cmd)

/-- pyStrip models Python `str.strip()` with no arguments: remove leading and
trailing whitespace. -/
def pyStrip (s : String) : String :=
  String.mk (((s.data.dropWhile Char.isWhitespace).reverse.dropWhile Char.isWhitespace).reverse)

/-- pyOr models Python `a or b` on strings (`""` is falsy). -/
def pyOr (a b : String) : String :=
  if a = "" then b else a

/-- pyOrOpt models Python `a or b` where `a : Optional[str]` (both `None` and
`""` are falsy). -/
def pyOrOpt (a : Option String) (b : String) : String :=
  match a with
  | Option.none => b
  | Option.some s => pyOr s b

/-- splitSlash splits a character list on `/`, keeping empty components. -/
def splitSlash : List Char → List (List Char)
  | [] => [[]]
  | c :: rest =>
    match splitSlash rest with
    | [] => if c = '/' then [[], []] else [[c]]
    | g :: gs => if c = '/' then [] :: g :: gs else (c :: g) :: gs

/-- pathName models CPython `pathlib.PurePath(s).name`: the final path
component, with empty and `.` components dropped. -/
def pathName (s : String) : String :=
  String.mk (((splitSlash s.data).filter (fun c => ¬(c = [] ∨ c = ['.']))).getLastD [])

/-- lastDotPos returns the index of the last `.` in the character list, if
any. -/
def lastDotPos : List Char → Option Nat
  | [] => Option.none
  | c :: rest =>
    match lastDotPos rest with
    | Option.some i => Option.some (i + 1)
    | Option.none => if c = '.' then Option.some 0 else Option.none

/-- pathSuffix models CPython `pathlib.PurePath(s).suffix`: with `name` the
final component and `i` the index of its last dot, the suffix is `name[i:]`
when `0 < i < len(name) - 1`, and `""` otherwise. -/
def pathSuffix (s : String) : String :=
  let name := pathName s
  match lastDotPos name.data with
  | Option.some i =>
    if 0 < i ∧ i + 1 < name.data.length then String.mk (name.data.drop i) else ""
  | Option.none => ""

/-- suffixFor embeds line `suffix = Path(input_file.filename or "input").suffix
or ".yaml"` of both handler copies. -/
def suffixFor (u : Upload) : String :=
  pyOr (pathSuffix (pyOrOpt u.filename "input")) ".yaml"

/-- buildCmd embeds the command construction
`cmd = ["dr", "mup1cc", "-d", device, "-m", method]` followed by
`cmd += ["-i", str(temp_path)]` when a temp file was created. -/
def buildCmd (device method : String) (tp : Option String) : List String :=
  ["dr", "mup1cc", "-d", device, "-m", method] ++
    (match tp with
     | Option.some p => ["-i", p]
     | Option.none => [])

/-- cleanup embeds the `finally` block: `if temp_path and temp_path.exists():
temp_path.unlink()`, on a filesystem modelled as the list of existing paths. -/
def cleanup (p : String) (fs : List String) : List String :=
  if p ∈ fs then fs.filter (fun q => q ≠ p) else fs

/-- MUP1CC_TIMEOUT is the hard timeout (seconds) passed to `subprocess.run`
by both handler copies. -/
def MUP1CC_TIMEOUT : Nat := 30

namespace Web

/-- respondProc embeds lines 144-165 of `web/main.py`: run the command with a
30 second timeout, then map the outcome to a response.  Non-zero exit gives
500 with trimmed stderr (or the literal `mup1cc failed` when that is empty);
zero exit gives 200 with the YAML decoding of trimmed stdout under key
`output`, or the trimmed stdout itself under `output_raw` when the decoder
raises; `TimeoutExpired` gives 504 `mup1cc timeout`; any other exception from
`subprocess.run` gives 500 with the exception message. -/
def respondProc (env : Env) (cmd : List String) : Response :=
  match runProc env cmd MUP1CC_TIMEOUT with
  | ProcOutcome.exn m => Response.mk 500 (Body.error m)
  | ProcOutcome.timeout => Response.mk 504 (Body.error "mup1cc timeout")
  | ProcOutcome.completed rc out err =>
    if rc ≠ 0 then
      Response.mk 500 (Body.error (pyOr (pyStrip err) "mup1cc failed"))
    else
      match env.yamlLoad (pyStrip out) with
      | Option.some v => Response.mk 200 (Body.output v)
      | Option.none => Response.mk 200 (Body.output_raw (pyStrip out))

/-- run_mup1cc embeds the handler of `web/main.py` lines 117-169.  It returns
the response together with the final filesystem.  An exception raised before
`temp_path` is assigned reaches the outer `except` with no file to clean up;
one raised after creation still runs the `finally` cleanup; on the normal path
the temp file (when present) is created, the process runs (its filesystem
effect is `env.fsProc`), and the `finally` cleanup removes the temp file when
it still exists. -/
def run_mup1cc (env : Env) (fs : List String) (method device : String)
    (input_file : Option Upload) : Response × List String :=
  match input_file with
  | Option.none =>
    (respondProc env (buildCmd device method Option.none), env.fsProc fs)
  | Option.some up =>
    match env.temp (suffixFor up) with
    | TempOutcome.exnBefore msg =>
      (Response.mk 500 (Body.error msg), fs)
    | TempOutcome.exnAfter p msg =>
      (Response.mk 500 (Body.error msg), cleanup p (p :: fs))
    | TempOutcome.okCreated p =>
      (respondProc env (buildCmd device method (Option.some p)),
        cleanup p (env.fsProc (p :: fs)))

end Web

namespace Docker

/-- respondProc embeds lines 122-140 of `support /docker/main.py`, the
process-outcome-to-response mapping of the docker copy (textually identical
to the web copy). -/
def respondProc (env : Env) (cmd : List String) : Response :=
  match runProc env cmd MUP1CC_TIMEOUT with
  | ProcOutcome.exn m => Response.mk 500 (Body.error m)
  | ProcOutcome.timeout => Response.mk 504 (Body.error "mup1cc timeout")
  | ProcOutcome.completed rc out err =>
    if rc ≠ 0 then
      Response.mk 500 (Body.error (pyOr (pyStrip err) "mup1cc failed"))
    else
      match env.yamlLoad (pyStrip out) with
      | Option.some v => Response.mk 200 (Body.output v)
      | Option.none => Response.mk 200 (Body.output_raw (pyStrip out))

/-- run_mup1cc embeds the handler of `support /docker/main.py` lines 103-143
(textually identical to the web copy). -/
def run_mup1cc (env : Env) (fs : List String) (method device : String)
    (input_file : Option Upload) : Response × List String :=
  match input_file with
  | Option.none =>
    (respondProc env (buildCmd device method Option.none), env.fsProc fs)
  | Option.some up =>
    match env.temp (suffixFor up) with
    | TempOutcome.exnBefore msg =>
      (Response.mk 500 (Body.error msg), fs)
    | TempOutcome.exnAfter p msg =>
      (Response.mk 500 (Body.error msg), cleanup p (p :: fs))
    | TempOutcome.okCreated p =>
      (respondProc env (buildCmd device method (Option.some p)),
        cleanup p (env.fsProc (p :: fs)))

end Docker

/-- tempPathArg gives the temp-file path that reaches the command line: the
created path when an upload is present and the temp phase succeeded, and
nothing otherwise. -/
def tempPathArg (env : Env) (u : Option Upload) : Option String :=
  match u with
  | Option.none => Option.none
  | Option.some up =>
    match env.temp (suffixFor up) with
    | TempOutcome.okCreated p => Option.some p
    | TempOutcome.exnBefore _ => Option.none
    | TempOutcome.exnAfter _ _ => Option.none

/-- cmdOf is the command line the handler hands to the process for a given
request, when the temp phase does not abort the request. -/
def cmdOf (env : Env) (method device : String) (u : Option Upload) : List String :=
  buildCmd device method (tempPathArg env u)

/-- tempReached states that the request reaches the process invocation:
either there is no upload, or the temp-file phase succeeded. -/
def tempReached (env : Env) (u : Option Upload) : Prop :=
  match u with
  | Option.none => True
  | Option.some up => ∃ p, env.temp (suffixFor up) = TempOutcome.okCreated p

/-- createdPath gives the temp-file path actually created on disk, including
the case where a later temp-phase step raised after creation. -/
def createdPath (env : Env) (u : Option Upload) : Option String :=
  match u with
  | Option.none => Option.none
  | Option.some up =>
    match env.temp (suffixFor up) with
    | TempOutcome.okCreated p => Option.some p
    | TempOutcome.exnBefore _ => Option.none
    | TempOutcome.exnAfter p _ => Option.some p

/-- Sanity checks for the pathlib and strip models. -/
theorem path_model_sanity :
    pathSuffix "a.tar.gz" = ".gz" ∧ pathSuffix "archive" = "" ∧
    pathSuffix ".bashrc" = "" ∧ pathSuffix "dir/f.txt" = ".txt" ∧
    pyStrip "  status: ok\n" = "status: ok" ∧
    suffixFor (Upload.mk Option.none []) = ".yaml" ∧
    suffixFor (Upload.mk (Option.some "conf.yml") []) = ".yml" := by
  refine ⟨?_, ?_, ?_, ?_, ?_, ?_, ?_⟩ <;> decide

/-- Helper: when the temp phase does not abort the request, the response is
the outcome of running the constructed command. -/
theorem web_run_fst (env : Env) (fs : List String) (method device : String)
    (u : Option Upload) (h : tempReached env u) :
    (Web.run_mup1cc env fs method device u).1
      = Web.respondProc env (cmdOf env method device u) := by
  cases u with
  | none => rfl
  | some up =>
    obtain ⟨p, hp⟩ := h
    simp only [Web.run_mup1cc, cmdOf, tempPathArg, hp]

/-- Helper: a process that neither raises nor exceeds the timeout completes. -/
theorem runProc_completed_of (env : Env) (cmd : List String) (t : Nat)
    (hexn : env.procExn cmd = Option.none)
    (ht : env.procTime cmd = Option.some t) (hle : t ≤ MUP1CC_TIMEOUT) :
    runProc env cmd MUP1CC_TIMEOUT
      = ProcOutcome.completed (env.procRc cmd) (env.procStdout cmd) (env.procStderr cmd) := by
  simp only [runProc, hexn, ht, if_neg (Nat.not_lt.mpr hle)]

/-- C1: for every request where the external process exits with status zero,
the handler responds 200 with a body carrying exactly one of the keys
`output` or `output_raw`: `output` with the YAML decoding of the trimmed
stdout when decoding succeeds, `output_raw` with the trimmed stdout string
when decoding raises. -/
theorem exit_zero_single_output_key (env : Env) (fs : List String)
    (method device : String) (u : Option Upload)
    (htemp : tempReached env u)
    (hexn : env.procExn (cmdOf env method device u) = Option.none)
    (ht : ∃ t, env.procTime (cmdOf env method device u) = Option.some t ∧ t ≤ MUP1CC_TIMEOUT)
    (hrc : env.procRc (cmdOf env method device u) = 0) :
    (Web.run_mup1cc env fs method device u).1.status = 200 ∧
    ((∃ v, env.yamlLoad (pyStrip (env.procStdout (cmdOf env method device u))) = Option.some v ∧
        (Web.run_mup1cc env fs method device u).1.body = Body.output v) ∨
      (env.yamlLoad (pyStrip (env.procStdout (cmdOf env method device u))) = Option.none ∧
        (Web.run_mup1cc env fs method device u).1.body
          = Body.output_raw (pyStrip (env.procStdout (cmdOf env method device u))))) ∧
    ((Web.run_mup1cc env fs method device u).1.body.keys = ["output"] ∨
      (Web.run_mup1cc env fs method device u).1.body.keys = ["output_raw"]) := by
  obtain ⟨t, htt, hle⟩ := ht
  rw [web_run_fst env fs method device u htemp]
  unfold Web.respondProc
  rw [runProc_completed_of env (cmdOf env method device u) t hexn htt hle]
  cases hy : env.yamlLoad (pyStrip (env.procStdout (cmdOf env method device u))) with
  | none => simp [hrc, hy, Body.keys]
  | some v => simp [hrc, hy, Body.keys]

/-- C2: for every request where the external process exits non-zero, the
handler responds 500 with an `error` body holding the trimmed stderr, or the
literal `mup1cc failed` when the trimmed stderr is empty. -/
theorem nonzero_exit_error_body (env : Env) (fs : List String)
    (method device : String) (u : Option Upload)
    (htemp : tempReached env u)
    (hexn : env.procExn (cmdOf env method device u) = Option.none)
    (ht : ∃ t, env.procTime (cmdOf env method device u) = Option.some t ∧ t ≤ MUP1CC_TIMEOUT)
    (hrc : env.procRc (cmdOf env method device u) ≠ 0) :
    (Web.run_mup1cc env fs method device u).1.status = 500 ∧
    (pyStrip (env.procStderr (cmdOf env method device u)) ≠ "" →
      (Web.run_mup1cc env fs method device u).1.body
        = Body.error (pyStrip (env.procStderr (cmdOf env method device u)))) ∧
    (pyStrip (env.procStderr (cmdOf env method device u)) = "" →
      (Web.run_mup1cc env fs method device u).1.body = Body.error "mup1cc failed") := by
  obtain ⟨t, htt, hle⟩ := ht
  rw [web_run_fst env fs method device u htemp]
  unfold Web.respondProc
  rw [runProc_completed_of env (cmdOf env method device u) t hexn htt hle]
  refine ⟨by simp [hrc], ?_, ?_⟩
  · intro hne
    simp [hrc, pyOr, hne]
  · intro heq
    simp [hrc, pyOr, heq]

/-- C3: for every request whose process invocation does not finish within the
30 second timeout, the handler responds 504 with body `error: mup1cc
timeout`. -/
theorem timeout_gives_504 (env : Env) (fs : List String)
    (method device : String) (u : Option Upload)
    (htemp : tempReached env u)
    (hexn : env.procExn (cmdOf env method device u) = Option.none)
    (ht : env.procTime (cmdOf env method device u) = Option.none ∨
      ∃ t, env.procTime (cmdOf env method device u) = Option.some t ∧ MUP1CC_TIMEOUT < t) :
    (Web.run_mup1cc env fs method device u).1
      = Response.mk 504 (Body.error "mup1cc timeout") := by
  rw [web_run_fst env fs method device u htemp]
  unfold Web.respondProc
  rcases ht with hnone | ⟨t, htt, hgt⟩
  · simp [runProc, hexn, hnone]
  · simp [runProc, hexn, htt, if_pos hgt]

/-- envDecodeRaises is an environment where the process exits 0 with stdout
that makes the YAML decoder raise (`yamlLoad` returns nothing on every
input). -/
def envDecodeRaises : Env where
  temp := fun _ => TempOutcome.okCreated "/tmp/req.yaml"
  procExn := fun _ => Option.none
  procTime := fun _ => Option.some 1
  procRc := fun _ => 0
  procStdout := fun _ => "not: [valid yaml"
  procStderr := fun _ => ""
  yamlLoad := fun _ => Option.none
  fsProc := fun l => l

/-- C4 counterexample: an exception raised during output decoding (the YAML
decoder raises on the process stdout) does not produce a 500 response: the
handler catches it locally and responds 200 with `output_raw`. -/
theorem decode_exception_gives_200_raw :
    (Web.run_mup1cc envDecodeRaises [] "get" "/dev/ttyACM0" Option.none).1
      = Response.mk 200 (Body.output_raw "not: [valid yaml") ∧
    ¬(Web.run_mup1cc envDecodeRaises [] "get" "/dev/ttyACM0" Option.none).1.status = 500 := by
  constructor
  · rfl
  · decide

/-- C4 amended: an exception raised during temp-file handling (before or
after the file is created) or during process execution yields 500 with the
exception message, and no exception escapes the handler; an exception raised
by the YAML output decoder is instead caught locally and yields 200 with the
trimmed stdout under `output_raw`. -/
theorem handler_exception_policy (env : Env) (fs : List String)
    (method device : String) (u : Option Upload) (msg : String) :
    ((∃ up, u = Option.some up ∧ env.temp (suffixFor up) = TempOutcome.exnBefore msg) →
      (Web.run_mup1cc env fs method device u).1 = Response.mk 500 (Body.error msg)) ∧
    ((∃ up p, u = Option.some up ∧ env.temp (suffixFor up) = TempOutcome.exnAfter p msg) →
      (Web.run_mup1cc env fs method device u).1 = Response.mk 500 (Body.error msg)) ∧
    (tempReached env u → env.procExn (cmdOf env method device u) = Option.some msg →
      (Web.run_mup1cc env fs method device u).1 = Response.mk 500 (Body.error msg)) ∧
    (tempReached env u → env.procExn (cmdOf env method device u) = Option.none →
      (∃ t, env.procTime (cmdOf env method device u) = Option.some t ∧ t ≤ MUP1CC_TIMEOUT) →
      env.procRc (cmdOf env method device u) = 0 →
      env.yamlLoad (pyStrip (env.procStdout (cmdOf env method device u))) = Option.none →
      (Web.run_mup1cc env fs method device u).1
        = Response.mk 200 (Body.output_raw (pyStrip (env.procStdout (cmdOf env method device u))))) := by
  refine ⟨?_, ?_, ?_, ?_⟩
  · rintro ⟨up, rfl, hb⟩
    simp [Web.run_mup1cc, hb]
  · rintro ⟨up, p, rfl, ha⟩
    simp [Web.run_mup1cc, ha]
  · intro htemp hraise
    rw [web_run_fst env fs method device u htemp]
    simp [Web.respondProc, runProc, hraise]
  · intro htemp hexn ht hrc hy
    obtain ⟨t, htt, hle⟩ := ht
    rw [web_run_fst env fs method device u htemp]
    unfold Web.respondProc
    rw [runProc_completed_of env (cmdOf env method device u) t hexn htt hle]
    simp [hrc, hy]

/-- Helper: after cleanup of path `p`, the path `p` is never present. -/
theorem not_mem_cleanup (p : String) (l : List String) : p ∉ cleanup p l := by
  unfold cleanup
  by_cases h : p ∈ l
  · rw [if_pos h]
    intro hm
    rcases List.mem_filter.mp hm with ⟨-, hq⟩
    simp at hq
  · rw [if_neg h]
    exact h

/-- C5: for every request with an upload whose temp file was created, the
temp path is absent from the final filesystem on every exit path; for
requests without an upload the handler itself touches no file (the final
filesystem is exactly the process effect on the initial one). -/
theorem temp_file_cleanup (env : Env) (fs : List String) (method device : String) :
    (∀ u p, createdPath env (Option.some u) = Option.some p →
      p ∉ (Web.run_mup1cc env fs method device (Option.some u)).2) ∧
    (Web.run_mup1cc env fs method device Option.none).2 = env.fsProc fs := by
  constructor
  · intro u p h
    cases henv : env.temp (suffixFor u) with
    | okCreated q =>
      simp only [createdPath, henv, Option.some.injEq] at h
      subst h
      simp only [Web.run_mup1cc, henv]
      exact not_mem_cleanup q (env.fsProc (q :: fs))
    | exnBefore msg =>
      simp only [createdPath, henv] at h
      exact Option.noConfusion h
    | exnAfter q msg =>
      simp only [createdPath, henv, Option.some.injEq] at h
      subst h
      simp only [Web.run_mup1cc, henv]
      exact not_mem_cleanup q (q :: fs)
  · rfl

/-- C6: when the temp phase does not abort the request, the response is the
process outcome for exactly the command `dr mup1cc -d device -m method`,
extended with `-i tempPath` precisely when an upload was present; `device`
and `method` appear verbatim, and only exit code, stdout and stderr are
consumed. -/
theorem command_line_exact (env : Env) (fs : List String)
    (method device : String) (u : Option Upload) (htemp : tempReached env u) :
    (Web.run_mup1cc env fs method device u).1
      = Web.respondProc env (["dr", "mup1cc", "-d", device, "-m", method] ++
          (match tempPathArg env u with
           | Option.some p => ["-i", p]
           | Option.none => [])) ∧
    (tempPathArg env u = Option.none ↔ u = Option.none) := by
  refine ⟨web_run_fst env fs method device u htemp, ?_⟩
  cases u with
  | none => simp [tempPathArg]
  | some up =>
    obtain ⟨p, hp⟩ := htemp
    simp [tempPathArg, hp]

/-- C7: the suffix requested for the temp file equals the upload filename's
extension (in the pathlib sense) when there is one, and is `.yaml` when the
filename is absent or has no extension. -/
theorem temp_suffix_rule (u : Upload) :
    (∀ f, u.filename = Option.some f → pathSuffix f ≠ "" → suffixFor u = pathSuffix f) ∧
    (u.filename = Option.none → suffixFor u = ".yaml") ∧
    (∀ f, u.filename = Option.some f → pathSuffix f = "" → suffixFor u = ".yaml") := by
  obtain ⟨fn, cont⟩ := u
  refine ⟨?_, ?_, ?_⟩
  · intro f hf hne
    simp only at hf
    subst hf
    have hf0 : ¬f = "" := by
      intro h0
      subst h0
      exact hne rfl
    simp [suffixFor, pyOrOpt, pyOr, hf0, hne]
  · intro h
    simp only at h
    subst h
    rfl
  · intro f hf h0
    simp only at hf
    subst hf
    by_cases hf0 : f = ""
    · subst hf0
      rfl
    · simp [suffixFor, pyOrOpt, pyOr, hf0, h0]

/-- C8: with the external process a deterministic function of the command
line (a fixed environment), the response is a function of the request alone:
it does not depend on the initial filesystem, so repeating the same request
yields an identical response. -/
theorem response_deterministic (env : Env) (method device : String)
    (u : Option Upload) (fs fs2 : List String) :
    (Web.run_mup1cc env fs method device u).1
      = (Web.run_mup1cc env fs2 method device u).1 := by
  cases u with
  | none => rfl
  | some up =>
    cases h : env.temp (suffixFor up) <;> simp [Web.run_mup1cc, h]

/-- C9: the handler in `web/main.py` and the handler in the docker copy are
behaviourally identical: on every environment, filesystem and request they
return the same response and the same final filesystem. -/
theorem web_docker_equivalent (env : Env) (fs : List String)
    (method device : String) (u : Option Upload) :
    Web.run_mup1cc env fs method device u = Docker.run_mup1cc env fs method device u := rfl

/-- C10: when the process exits zero and its trimmed stdout is empty, and the
YAML decoder maps the empty string to Python None (which pyyaml's safe_load
does), the response is 200 with `output` equal to null, not `output_raw`. -/
theorem empty_stdout_output_null (env : Env) (fs : List String)
    (method device : String) (u : Option Upload)
    (htemp : tempReached env u)
    (hexn : env.procExn (cmdOf env method device u) = Option.none)
    (ht : ∃ t, env.procTime (cmdOf env method device u) = Option.some t ∧ t ≤ MUP1CC_TIMEOUT)
    (hrc : env.procRc (cmdOf env method device u) = 0)
    (hout : pyStrip (env.procStdout (cmdOf env method device u)) = "")
    (hyaml : env.yamlLoad "" = Option.some PyObj.none) :
    (Web.run_mup1cc env fs method device u).1
      = Response.mk 200 (Body.output PyObj.none) := by
  obtain ⟨t, htt, hle⟩ := ht
  rw [web_run_fst env fs method device u htemp]
  unfold Web.respondProc
  rw [runProc_completed_of env (cmdOf env method device u) t hexn htt hle]
  simp [hrc, hout, hyaml]

/-- envOkYaml is an environment where the process exits 0 with YAML stdout. -/
def envOkYaml : Env where
  temp := fun _ => TempOutcome.okCreated "/tmp/up.yaml"
  procExn := fun _ => Option.none
  procTime := fun _ => Option.some 1
  procRc := fun _ => 0
  procStdout := fun _ => "status: ok"
  procStderr := fun _ => ""
  yamlLoad := fun s =>
    if s = "" then Option.some PyObj.none
    else if s = "status: ok" then Option.some (PyObj.dict [("status", PyObj.str "ok")])
    else Option.none
  fsProc := fun l => l

/-- envFail is an environment where the process exits 1 with stderr text. -/
def envFail : Env where
  temp := fun _ => TempOutcome.okCreated "/tmp/up.yaml"
  procExn := fun _ => Option.none
  procTime := fun _ => Option.some 2
  procRc := fun _ => 1
  procStdout := fun _ => ""
  procStderr := fun _ => "connection refused\n"
  yamlLoad := fun _ => Option.none
  fsProc := fun l => l

/-- envTimeout is an environment where the process never finishes. -/
def envTimeout : Env where
  temp := fun _ => TempOutcome.okCreated "/tmp/up.yaml"
  procExn := fun _ => Option.none
  procTime := fun _ => Option.none
  procRc := fun _ => 0
  procStdout := fun _ => ""
  procStderr := fun _ => ""
  yamlLoad := fun _ => Option.none
  fsProc := fun l => l

/-- envProcRaises is an environment where `subprocess.run` raises a
non-timeout exception with message `boom`. -/
def envProcRaises : Env where
  temp := fun _ => TempOutcome.okCreated "/tmp/up.yaml"
  procExn := fun _ => Option.some "boom"
  procTime := fun _ => Option.some 1
  procRc := fun _ => 0
  procStdout := fun _ => ""
  procStderr := fun _ => ""
  yamlLoad := fun _ => Option.none
  fsProc := fun l => l

/-- envEmptyOut is an environment where the process exits 0 with
whitespace-only stdout and the decoder behaves like pyyaml on "". -/
def envEmptyOut : Env where
  temp := fun _ => TempOutcome.okCreated "/tmp/up.yaml"
  procExn := fun _ => Option.none
  procTime := fun _ => Option.some 1
  procRc := fun _ => 0
  procStdout := fun _ => "  \n"
  procStderr := fun _ => ""
  yamlLoad := fun s => if s = "" then Option.some PyObj.none else Option.none
  fsProc := fun l => l

/-- uploadA is a concrete upload with a `.yaml` filename. -/
def uploadA : Upload := Upload.mk (Option.some "conf.yaml") [104, 105]

/-- Witness for C1 at a concrete successful request. -/
theorem exit_zero_single_output_key_witness :
    tempReached envOkYaml Option.none ∧
    envOkYaml.procExn (cmdOf envOkYaml "get" "/dev/ttyACM0" Option.none) = Option.none ∧
    (∃ t, envOkYaml.procTime (cmdOf envOkYaml "get" "/dev/ttyACM0" Option.none) = Option.some t ∧
      t ≤ MUP1CC_TIMEOUT) ∧
    envOkYaml.procRc (cmdOf envOkYaml "get" "/dev/ttyACM0" Option.none) = 0 ∧
    ((Web.run_mup1cc envOkYaml [] "get" "/dev/ttyACM0" Option.none).1.status = 200 ∧
      ((∃ v, envOkYaml.yamlLoad
            (pyStrip (envOkYaml.procStdout (cmdOf envOkYaml "get" "/dev/ttyACM0" Option.none)))
            = Option.some v ∧
          (Web.run_mup1cc envOkYaml [] "get" "/dev/ttyACM0" Option.none).1.body = Body.output v) ∨
        (envOkYaml.yamlLoad
            (pyStrip (envOkYaml.procStdout (cmdOf envOkYaml "get" "/dev/ttyACM0" Option.none)))
            = Option.none ∧
          (Web.run_mup1cc envOkYaml [] "get" "/dev/ttyACM0" Option.none).1.body
            = Body.output_raw
                (pyStrip (envOkYaml.procStdout (cmdOf envOkYaml "get" "/dev/ttyACM0" Option.none))))) ∧
      ((Web.run_mup1cc envOkYaml [] "get" "/dev/ttyACM0" Option.none).1.body.keys = ["output"] ∨
        (Web.run_mup1cc envOkYaml [] "get" "/dev/ttyACM0" Option.none).1.body.keys = ["output_raw"])) :=
  ⟨trivial, rfl, ⟨1, rfl, by decide⟩, rfl,
    exit_zero_single_output_key envOkYaml [] "get" "/dev/ttyACM0" Option.none trivial rfl
      ⟨1, rfl, by decide⟩ rfl⟩

/-- Witness for C2 at a concrete failing request. -/
theorem nonzero_exit_error_body_witness :
    tempReached envFail Option.none ∧
    envFail.procExn (cmdOf envFail "fetch" "termhub://10.0.0.2:4000" Option.none) = Option.none ∧
    (∃ t, envFail.procTime (cmdOf envFail "fetch" "termhub://10.0.0.2:4000" Option.none)
        = Option.some t ∧ t ≤ MUP1CC_TIMEOUT) ∧
    envFail.procRc (cmdOf envFail "fetch" "termhub://10.0.0.2:4000" Option.none) ≠ 0 ∧
    ((Web.run_mup1cc envFail [] "fetch" "termhub://10.0.0.2:4000" Option.none).1.status = 500 ∧
      (pyStrip (envFail.procStderr (cmdOf envFail "fetch" "termhub://10.0.0.2:4000" Option.none)) ≠ "" →
        (Web.run_mup1cc envFail [] "fetch" "termhub://10.0.0.2:4000" Option.none).1.body
          = Body.error
              (pyStrip (envFail.procStderr (cmdOf envFail "fetch" "termhub://10.0.0.2:4000" Option.none)))) ∧
      (pyStrip (envFail.procStderr (cmdOf envFail "fetch" "termhub://10.0.0.2:4000" Option.none)) = "" →
        (Web.run_mup1cc envFail [] "fetch" "termhub://10.0.0.2:4000" Option.none).1.body
          = Body.error "mup1cc failed")) :=
  ⟨trivial, rfl, ⟨2, rfl, by decide⟩, by decide,
    nonzero_exit_error_body envFail [] "fetch" "termhub://10.0.0.2:4000" Option.none trivial rfl
      ⟨2, rfl, by decide⟩ (by decide)⟩

/-- Witness for C3 at a concrete request whose process never finishes. -/
theorem timeout_gives_504_witness :
    tempReached envTimeout Option.none ∧
    envTimeout.procExn (cmdOf envTimeout "get" "/dev/ttyACM0" Option.none) = Option.none ∧
    envTimeout.procTime (cmdOf envTimeout "get" "/dev/ttyACM0" Option.none) = Option.none ∧
    (Web.run_mup1cc envTimeout [] "get" "/dev/ttyACM0" Option.none).1
      = Response.mk 504 (Body.error "mup1cc timeout") :=
  ⟨trivial, rfl, rfl,
    timeout_gives_504 envTimeout [] "get" "/dev/ttyACM0" Option.none trivial rfl (Or.inl rfl)⟩

/-- Witness for the amended C4 at a concrete request whose process invocation
raises a non-timeout exception. -/
theorem handler_exception_policy_witness :
    tempReached envProcRaises Option.none ∧
    envProcRaises.procExn (cmdOf envProcRaises "get" "/dev/ttyACM0" Option.none)
      = Option.some "boom" ∧
    (Web.run_mup1cc envProcRaises [] "get" "/dev/ttyACM0" Option.none).1
      = Response.mk 500 (Body.error "boom") :=
  ⟨trivial, rfl,
    (handler_exception_policy envProcRaises [] "get" "/dev/ttyACM0" Option.none "boom").2.2.1
      trivial rfl⟩

/-- Witness for C5 at a concrete uploaded request. -/
theorem temp_file_cleanup_witness :
    createdPath envOkYaml (Option.some uploadA) = Option.some "/tmp/up.yaml" ∧
    "/tmp/up.yaml" ∉ (Web.run_mup1cc envOkYaml [] "get" "/dev/ttyACM0" (Option.some uploadA)).2 :=
  ⟨rfl, (temp_file_cleanup envOkYaml [] "get" "/dev/ttyACM0").1 uploadA "/tmp/up.yaml" rfl⟩

/-- Witness for C6 at a concrete uploaded request. -/
theorem command_line_exact_witness :
    tempReached envOkYaml (Option.some uploadA) ∧
    ((Web.run_mup1cc envOkYaml [] "get" "/dev/ttyACM0" (Option.some uploadA)).1
        = Web.respondProc envOkYaml (["dr", "mup1cc", "-d", "/dev/ttyACM0", "-m", "get"] ++
            (match tempPathArg envOkYaml (Option.some uploadA) with
             | Option.some p => ["-i", p]
             | Option.none => [])) ∧
      (tempPathArg envOkYaml (Option.some uploadA) = Option.none ↔
        Option.some uploadA = Option.none)) :=
  ⟨⟨"/tmp/up.yaml", rfl⟩,
    command_line_exact envOkYaml [] "get" "/dev/ttyACM0" (Option.some uploadA)
      ⟨"/tmp/up.yaml", rfl⟩⟩

/-- Witness for C7 at a concrete upload with a `.yaml` extension. -/
theorem temp_suffix_rule_witness :
    uploadA.filename = Option.some "conf.yaml" ∧ pathSuffix "conf.yaml" ≠ "" ∧
    suffixFor uploadA = pathSuffix "conf.yaml" :=
  ⟨rfl, by decide, (temp_suffix_rule uploadA).1 "conf.yaml" rfl (by decide)⟩

/-- Witness for C10 at a concrete request with whitespace-only stdout. -/
theorem empty_stdout_output_null_witness :
    tempReached envEmptyOut Option.none ∧
    envEmptyOut.procExn (cmdOf envEmptyOut "get" "/dev/ttyACM0" Option.none) = Option.none ∧
    (∃ t, envEmptyOut.procTime (cmdOf envEmptyOut "get" "/dev/ttyACM0" Option.none)
        = Option.some t ∧ t ≤ MUP1CC_TIMEOUT) ∧
    envEmptyOut.procRc (cmdOf envEmptyOut "get" "/dev/ttyACM0" Option.none) = 0 ∧
    pyStrip (envEmptyOut.procStdout (cmdOf envEmptyOut "get" "/dev/ttyACM0" Option.none)) = "" ∧
    envEmptyOut.yamlLoad "" = Option.some PyObj.none ∧
    (Web.run_mup1cc envEmptyOut [] "get" "/dev/ttyACM0" Option.none).1
      = Response.mk 200 (Body.output PyObj.none) :=
  ⟨trivial, rfl, ⟨1, rfl, by decide⟩, rfl, by decide, rfl,
    empty_stdout_output_null envEmptyOut [] "get" "/dev/ttyACM0" Option.none trivial rfl
      ⟨1, rfl, by decide⟩ rfl (by decide) rfl⟩
